import Mathlib

/-!
Verification of `PRPs/scripts/prp_runner.py`, a command-line utility that
resolves a PRP file path from arguments, reads the file, prepends a fixed
header, and prints the result either headless or with surrounding
instructions.

The embedding models:
  - the filesystem as an association list from path strings to contents;
  - `pathlib.Path` values as plain path strings, with `/`-joining
    mirroring POSIX `pathlib` behaviour (an absolute right operand
    replaces the left operand);
  - Python string truthiness of optional arguments (`None` and the empty
    string are falsy);
  - the three functions `load_prp_content`, `run_cursor_model`,
    `resolve_prp_path` and the entry point `main` as pure functions, with
    raised exceptions as `Except.error` carrying the exception message and
    process output as an `Outcome` record (exit code, stdout, stderr).

`root` stands for the constant `ROOT = Path(__file__).resolve().parent.parent`,
the directory two levels above the script location; it is passed as a
parameter since its concrete value depends on where the repository is
checked out.
-/

namespace PrpRunner

/-- The constant `META_HEADER` from `prp_runner.py`, reproduced verbatim. -/
def META_HEADER : String :=
  "Ingest and understand the Product Requirement Prompt (PRP) below in detail.\n"
  ++ "\n"
  ++ "    # WORKFLOW GUIDANCE:\n"
  ++ "\n"
  ++ "    ## Planning Phase\n"
  ++ "    - Think hard before you code. Create a comprehensive plan addressing all requirements.\n"
  ++ "    - Break down complex tasks into smaller, manageable steps.\n"
  ++ "    - Use the TodoWrite tool to create and track your implementation plan.\n"
  ++ "    - Identify implementation patterns from existing code to follow.\n"
  ++ "\n"
  ++ "    ## Implementation Phase\n"
  ++ "    - Follow code conventions and patterns found in existing files.\n"
  ++ "    - Implement one component at a time and verify it works correctly.\n"
  ++ "    - Write clear, maintainable code with appropriate comments.\n"
  ++ "    - Consider error handling, edge cases, and potential security issues.\n"
  ++ "    - Use type hints to ensure type safety.\n"
  ++ "\n"
  ++ "    ## Validation Phase\n"
  ++ "    - Run all validation commands specified in the PRP.\n"
  ++ "    - Test the implementation thoroughly.\n"
  ++ "    - Ensure all requirements are met before considering the task complete.\n"
  ++ "    - Fix any issues found during validation.\n"
  ++ "\n"
  ++ "    ---\n"
  ++ "\n"
  ++ "    Now, implement the PRP below:\n"
  ++ "\n"
  ++ "    "

/-- The filesystem: an association list from path strings to file contents.
A path references an existing file exactly when it has an entry. -/
def Fs : Type := List (String × String)

/-- Look up a file: `Path.exists` and `Path.read_text` combined. `none`
models a missing file, `some c` a readable file with content `c`. -/
def fsRead (fs : Fs) (p : String) : Option String :=
  (List.find? (fun e => e.1 == p) fs).map (fun e => e.2)

/-- Whether a path string is absolute (POSIX: begins with a slash). -/
def isAbs (s : String) : Bool := s.data.head? == some '/'

/-- The `/` operator of `pathlib.Path` on path strings: an absolute right
operand replaces the left operand, otherwise the segments are joined with
a slash. -/
def pathJoin (base s : String) : String :=
  if isAbs s then s else base ++ "/" ++ s

/-- Python truthiness of an `Optional[str]`: `None` and `""` are falsy. -/
def pyTruthy : Option String → Bool
  | none => false
  | some s => !(s == "")

/-- `load_prp_content(prp_path)`: raise `FileNotFoundError` with message
`PRP file not found: <path>` when the path does not exist, otherwise
return `META_HEADER + prp_content`. -/
def load_prp_content (fs : Fs) (prp_path : String) : Except String String :=
  match fsRead fs prp_path with
  | none => Except.error ("PRP file not found: " ++ prp_path)
  | some prp_content => Except.ok (META_HEADER ++ prp_content)

/-- `run_cursor_model(prompt, interactive)`: the text written to standard
output. Each Python `print` emits its argument followed by a newline. -/
def run_cursor_model (prompt : String) (interactive : Bool) : String :=
  if interactive then
    "=== PRP LOADED FOR CURSOR ===" ++ "\n"
    ++ (prompt ++ "\n")
    ++ ("\n=== INSTRUCTIONS ===" ++ "\n")
    ++ ("1. Copy the PRP content above" ++ "\n")
    ++ ("2. Paste it into Cursor" ++ "\n")
    ++ ("3. Follow the workflow guidance to implement the PRP" ++ "\n")
    ++ ("4. Use the validation commands to verify your implementation" ++ "\n")
  else
    prompt ++ "\n"

/-- `resolve_prp_path(prp_arg, prp_path_arg)`: the explicit path when it
is truthy, else `ROOT / f"<prp_arg>.md"` when the key is truthy, else a
`ValueError`. -/
def resolve_prp_path (root : String) (prp_arg prp_path_arg : Option String) :
    Except String String :=
  if pyTruthy prp_path_arg then
    Except.ok (prp_path_arg.getD "")
  else if pyTruthy prp_arg then
    Except.ok (pathJoin root (prp_arg.getD "" ++ ".md"))
  else
    Except.error "Must provide either --prp or --prp-path"

/-- The parsed command-line arguments: `args.prp`, `args.prp_path` (`none`
when the flag was not supplied) and the `--interactive` flag. -/
structure Args where
  prp : Option String
  prp_path : Option String
  interactive : Bool

/-- The observable result of one process run. -/
structure Outcome where
  exitCode : Nat
  stdout : String
  stderr : String
deriving DecidableEq, Repr

/-- The diagnostic `argparse` writes on `parser.error` (usage line plus
the message passed to `parser.error`), modelled as one fixed string. -/
def usageMessage : String :=
  "usage: prp_runner.py [-h] [--prp PRP] [--prp-path PRP_PATH] [--interactive]\n"
  ++ "prp_runner.py: error: Must provide either --prp or --prp-path\n"

/-- `main()` after argument parsing: the usage check (`parser.error`
exits with status 2), then resolve, load and present inside the
`try`/`except` block, which prints `Error: <e>` to stderr and exits 1. -/
def main (root : String) (fs : Fs) (args : Args) : Outcome :=
  if !pyTruthy args.prp && !pyTruthy args.prp_path then
    { exitCode := 2, stdout := "", stderr := usageMessage }
  else
    match resolve_prp_path root args.prp args.prp_path with
    | Except.error e =>
        { exitCode := 1, stdout := "", stderr := "Error: " ++ e ++ "\n" }
    | Except.ok prp_path =>
        match load_prp_content fs prp_path with
        | Except.error e =>
            { exitCode := 1, stdout := "", stderr := "Error: " ++ e ++ "\n" }
        | Except.ok prompt =>
            { exitCode := 0
              stdout := run_cursor_model prompt args.interactive
              stderr := "" }

/-- The Composed Prompt `main` constructs for a run, `none` when
resolution or loading fails; this follows the same pipeline as `main`
up to the call of `run_cursor_model`. -/
def composedPrompt (root : String) (fs : Fs) (args : Args) : Option String :=
  match resolve_prp_path root args.prp args.prp_path with
  | Except.error _ => none
  | Except.ok prp_path =>
      match load_prp_content fs prp_path with
      | Except.error _ => none
      | Except.ok prompt => some prompt

/-! ### Helper lemmas -/

/-- Appending to a nonempty string keeps the first character, hence
absoluteness of a path string. -/
lemma isAbs_append (k m : String) (h : k ≠ "") : isAbs (k ++ m) = isAbs k := by
  cases k with
  | mk l =>
    cases l with
    | nil => simp at h
    | cons c cs => simp [isAbs, String.data_append]

/-- A string with a nonempty right-hand append component is nonempty. -/
lemma append_ne_empty_right (a b : String) (h : b ≠ "") : a ++ b ≠ "" := by
  intro hc
  apply h
  have hdata := congrArg String.data hc
  rw [String.data_append] at hdata
  cases hd : b.data with
  | nil => exact String.ext hd
  | cons c cs => rw [hd] at hdata; simp at hdata

/-- When resolution succeeds, at least one of the two arguments is truthy,
so the usage check in `main` does not fire. -/
lemma resolve_ok_not_both_falsy (root : String) (a b : Option String) (p : String)
    (h : resolve_prp_path root a b = Except.ok p) :
    (!pyTruthy a && !pyTruthy b) = false := by
  by_cases hb : pyTruthy b
  · simp [hb]
  · by_cases ha : pyTruthy a
    · simp [ha]
    · simp [resolve_prp_path, hb, ha] at h

/-! ### Claim theorems -/

/-- C1: for every file content `s`, loading an existing file with content
`s` yields the Composed Prompt `META_HEADER ++ s` exactly — no trimming or
normalization — for the empty string as well as multi-line contents. The
equality to this fixed value also gives that two loads of the same file
return the identical Composed Prompt. -/
theorem load_prp_content_eq (fs : Fs) (p s : String) (h : fsRead fs p = some s) :
    load_prp_content fs p = Except.ok (META_HEADER ++ s) := by
  simp [load_prp_content, h]

/-- Witness for C1, at an empty file and at a multi-line file. -/
theorem load_prp_content_eq_witness :
    (fsRead [("/repo/PRPs/empty.md", ""), ("/repo/PRPs/test.md", "Build a widget.\n\nMore text.\n")]
        "/repo/PRPs/empty.md" = some "" ∧
      load_prp_content [("/repo/PRPs/empty.md", ""), ("/repo/PRPs/test.md", "Build a widget.\n\nMore text.\n")]
        "/repo/PRPs/empty.md" = Except.ok (META_HEADER ++ "")) ∧
    (fsRead [("/repo/PRPs/empty.md", ""), ("/repo/PRPs/test.md", "Build a widget.\n\nMore text.\n")]
        "/repo/PRPs/test.md" = some "Build a widget.\n\nMore text.\n" ∧
      load_prp_content [("/repo/PRPs/empty.md", ""), ("/repo/PRPs/test.md", "Build a widget.\n\nMore text.\n")]
        "/repo/PRPs/test.md" = Except.ok (META_HEADER ++ "Build a widget.\n\nMore text.\n")) :=
  ⟨⟨rfl, load_prp_content_eq _ _ _ rfl⟩, ⟨rfl, load_prp_content_eq _ _ _ rfl⟩⟩

/-- C2 counterexample: with `--prp k` and `--prp-path` set to the empty
string, the resolver does not return the explicit (empty) path; the empty
string is falsy, so resolution falls back to the feature key. -/
theorem resolve_both_empty_cex :
    resolve_prp_path "/repo/PRPs" (some "k") (some "") = Except.ok "/repo/PRPs/k.md" ∧
    resolve_prp_path "/repo/PRPs" (some "k") (some "") ≠ Except.ok "" := by
  refine ⟨rfl, ?_⟩
  intro hc
  have h1 : resolve_prp_path "/repo/PRPs" (some "k") (some "") =
      Except.ok "/repo/PRPs/k.md" := rfl
  rw [h1] at hc
  have h2 : ("/repo/PRPs/k.md" : String) = "" := Except.ok.inj hc
  exact absurd h2 (by decide)

/-- C2 (amended): when both arguments are supplied and the explicit
`--prp-path` value is nonempty, the resolver returns it unchanged, for
every feature-key value. -/
theorem resolve_explicit_path_wins (root k p : String) (h : p ≠ "") :
    resolve_prp_path root (some k) (some p) = Except.ok p := by
  simp [resolve_prp_path, pyTruthy, h]

/-- Witness for the amended C2. -/
theorem resolve_explicit_path_wins_witness :
    ("PRPs/other.md" : String) ≠ "" ∧
    resolve_prp_path "/repo/PRPs" (some "feature") (some "PRPs/other.md") =
      Except.ok "PRPs/other.md" :=
  ⟨by decide, resolve_explicit_path_wins "/repo/PRPs" "feature" "PRPs/other.md" (by decide)⟩

/-- C3: for every nonempty, non-absolute feature key `k`, resolving with
only `--prp k` yields exactly the join of the project root with `k`
followed by `.md`, with no other validation of the key; and this is the
same path that resolving with only `--prp-path <root>/k.md` returns. -/
theorem resolve_key_eq_join (root k : String) (h1 : k ≠ "") (h2 : isAbs k = false) :
    resolve_prp_path root (some k) none = Except.ok (root ++ "/" ++ k ++ ".md") ∧
    resolve_prp_path root none (some (root ++ "/" ++ k ++ ".md")) =
      Except.ok (root ++ "/" ++ k ++ ".md") := by
  constructor
  · simp [resolve_prp_path, pyTruthy, h1, pathJoin, isAbs_append k ".md" h1, h2,
      String.append_assoc]
  · have hne : root ++ "/" ++ k ++ ".md" ≠ "" :=
      append_ne_empty_right _ _ (by decide)
    simp [resolve_prp_path, pyTruthy, hne]

/-- Witness for C3 at the key `test`; note `widget.plan` also satisfies
the hypotheses, so no extension check constrains the key. -/
theorem resolve_key_eq_join_witness :
    (("test" : String) ≠ "" ∧ isAbs "test" = false) ∧
    (resolve_prp_path "/repo/PRPs" (some "test") none =
        Except.ok ("/repo/PRPs" ++ "/" ++ "test" ++ ".md") ∧
      resolve_prp_path "/repo/PRPs" none (some ("/repo/PRPs" ++ "/" ++ "test" ++ ".md")) =
        Except.ok ("/repo/PRPs" ++ "/" ++ "test" ++ ".md")) :=
  ⟨⟨by decide, by decide⟩, resolve_key_eq_join "/repo/PRPs" "test" (by decide) (by decide)⟩

/-- C4: whenever the resolved path has no file, the run exits with status
1, writes nothing to standard output, and the error stream is exactly
`Error: PRP file not found: <path>` (plus the newline `print` appends);
the outcome is a single terminal record, so no retry happens. -/
theorem main_not_found (root : String) (fs : Fs) (args : Args) (p : String)
    (hres : resolve_prp_path root args.prp args.prp_path = Except.ok p)
    (hmiss : fsRead fs p = none) :
    main root fs args =
      { exitCode := 1, stdout := "",
        stderr := "Error: " ++ ("PRP file not found: " ++ p) ++ "\n" } := by
  have hg := resolve_ok_not_both_falsy root args.prp args.prp_path p hres
  simp [main, hg, hres, load_prp_content, hmiss]

/-- Witness for C4 on an empty filesystem. -/
theorem main_not_found_witness :
    (resolve_prp_path "/repo/PRPs" (some "missing") none = Except.ok "/repo/PRPs/missing.md") ∧
    (fsRead [] "/repo/PRPs/missing.md" = none) ∧
    main "/repo/PRPs" [] ⟨some "missing", none, false⟩ =
      { exitCode := 1, stdout := "",
        stderr := "Error: " ++ ("PRP file not found: " ++ "/repo/PRPs/missing.md") ++ "\n" } :=
  ⟨rfl, rfl, main_not_found "/repo/PRPs" [] ⟨some "missing", none, false⟩
    "/repo/PRPs/missing.md" rfl rfl⟩

/-- C5: with neither `--prp` nor `--prp-path` supplied, the run exits with
the usage error code 2 and writes nothing to standard output, in either
mode; the outcome is the same for every filesystem, so no file I/O can
have influenced it. -/
theorem main_no_args (root : String) (fs fs2 : Fs) (b : Bool) :
    main root fs ⟨none, none, b⟩ = { exitCode := 2, stdout := "", stderr := usageMessage } ∧
    main root fs ⟨none, none, b⟩ = main root fs2 ⟨none, none, b⟩ := by
  constructor <;> rfl

/-- C6: headless output is exactly the Composed Prompt plus one trailing
newline; and in the concrete scenario where `PRPs/test.md` contains
`Build a widget.`, running with `--prp test` headless prints the header
literal, then `Build a widget.`, then a newline, and exits 0. -/
theorem headless_output (prompt : String) :
    run_cursor_model prompt false = prompt ++ "\n" ∧
    main "/repo/PRPs" [("/repo/PRPs/test.md", "Build a widget.")] ⟨some "test", none, false⟩ =
      { exitCode := 0, stdout := (META_HEADER ++ "Build a widget.") ++ "\n", stderr := "" } := by
  constructor <;> rfl

/-- C7: interactive output contains the Composed Prompt as a contiguous
substring, with a preceding banner holding the literal
`PRP LOADED FOR CURSOR` and a following second banner plus the fixed
4-item numbered instruction list; the surrounding text `pre` and `post`
are fixed literals independent of the prompt. -/
theorem interactive_output (prompt : String) :
    ∃ pre post,
      run_cursor_model prompt true = pre ++ prompt ++ post ∧
      pre = "=== PRP LOADED FOR CURSOR ===" ++ "\n" ∧
      (∃ a b, pre = a ++ "PRP LOADED FOR CURSOR" ++ b) ∧
      post = "\n"
        ++ ("\n=== INSTRUCTIONS ===" ++ "\n")
        ++ ("1. Copy the PRP content above" ++ "\n")
        ++ ("2. Paste it into Cursor" ++ "\n")
        ++ ("3. Follow the workflow guidance to implement the PRP" ++ "\n")
        ++ ("4. Use the validation commands to verify your implementation" ++ "\n") := by
  refine ⟨_, _, ?_, rfl, ⟨"=== ", " ===" ++ "\n", rfl⟩, rfl⟩
  simp [run_cursor_model, String.append_assoc]

/-- C8: standard output receives either the complete output of the chosen
mode — `run_cursor_model` applied to the Composed Prompt — with exit code
0, or nothing at all with a nonzero exit code; there is no partial
output. -/
theorem stdout_all_or_nothing (root : String) (fs : Fs) (args : Args) :
    ((main root fs args).exitCode = 0 ∧
      ∃ prompt, composedPrompt root fs args = some prompt ∧
        (main root fs args).stdout = run_cursor_model prompt args.interactive) ∨
    ((main root fs args).exitCode ≠ 0 ∧ (main root fs args).stdout = "") := by
  by_cases hg : (!pyTruthy args.prp && !pyTruthy args.prp_path) = true
  · right
    simp [main, hg]
  · rw [Bool.not_eq_true] at hg
    cases hr : resolve_prp_path root args.prp args.prp_path with
    | error e => right; simp [main, composedPrompt, hg, hr]
    | ok p =>
      cases hl : load_prp_content fs p with
      | error e => right; simp [main, composedPrompt, hg, hr, hl]
      | ok prompt => left; simp [main, composedPrompt, hg, hr, hl]

/-- C9: two runs over the same filesystem and the same path arguments that
differ only in the interactive flag construct the identical Composed
Prompt, and also agree on exit code and error stream — the mode flag only
changes the presentation on standard output. -/
theorem mode_flag_no_content_influence (root : String) (fs : Fs)
    (prp prp_path : Option String) (b1 b2 : Bool) :
    composedPrompt root fs ⟨prp, prp_path, b1⟩ = composedPrompt root fs ⟨prp, prp_path, b2⟩ ∧
    (main root fs ⟨prp, prp_path, b1⟩).exitCode = (main root fs ⟨prp, prp_path, b2⟩).exitCode ∧
    (main root fs ⟨prp, prp_path, b1⟩).stderr = (main root fs ⟨prp, prp_path, b2⟩).stderr := by
  refine ⟨rfl, ?_, ?_⟩ <;>
  · by_cases hg : (!pyTruthy prp && !pyTruthy prp_path) = true
    · simp [main, hg]
    · rw [Bool.not_eq_true] at hg
      cases hr : resolve_prp_path root prp prp_path with
      | error e => simp [main, hg, hr]
      | ok p =>
        cases hl : load_prp_content fs p with
        | error e => simp [main, hg, hr, hl]
        | ok prompt => simp [main, hg, hr, hl]

/-- C10: argument presence is decided by string truthiness — an empty
`--prp-path` together with `--prp k` resolves via the feature key to
`<root>/k.md`, and an empty `--prp-path` alone (or an empty `--prp`
alone) hits the usage error exactly as if nothing had been supplied. -/
theorem truthiness_decides_presence (root : String) (fs : Fs) (k : String) (b : Bool)
    (h1 : k ≠ "") (h2 : isAbs k = false) :
    resolve_prp_path root (some k) (some "") = Except.ok (root ++ "/" ++ k ++ ".md") ∧
    main root fs ⟨none, some "", b⟩ = { exitCode := 2, stdout := "", stderr := usageMessage } ∧
    main root fs ⟨some "", none, b⟩ = { exitCode := 2, stdout := "", stderr := usageMessage } := by
  refine ⟨?_, rfl, rfl⟩
  simp [resolve_prp_path, pyTruthy, h1, pathJoin, isAbs_append k ".md" h1, h2,
    String.append_assoc]

/-- Witness for C10 at the key `widget` in interactive mode. -/
theorem truthiness_decides_presence_witness :
    (("widget" : String) ≠ "" ∧ isAbs "widget" = false) ∧
    (resolve_prp_path "/repo/PRPs" (some "widget") (some "") =
        Except.ok ("/repo/PRPs" ++ "/" ++ "widget" ++ ".md") ∧
      main "/repo/PRPs" [] ⟨none, some "", true⟩ =
        { exitCode := 2, stdout := "", stderr := usageMessage } ∧
      main "/repo/PRPs" [] ⟨some "", none, true⟩ =
        { exitCode := 2, stdout := "", stderr := usageMessage }) :=
  ⟨⟨by decide, by decide⟩,
    truthiness_decides_presence "/repo/PRPs" [] "widget" true (by decide) (by decide)⟩

end PrpRunner
